import Mathlib

/-!
Shallow embedding of `src/main.py`: a script that reads all records from a
Google Sheet worksheet and exports them to a formatted PDF.

The embedding covers:
* the document renderer `export_to_pdf` (lines 34-96): the element list it
  builds (title paragraph, spacer, then per-record label paragraph / spacer /
  field paragraph / spacer, or a "no data" paragraph), its console output and
  its error handler;
* the pipeline `read_google_sheet` (lines 99-149): the sequence of external
  calls (credential load, authorize, open spreadsheet, open worksheet, fetch
  records, PDF build), its console output and its exception dispatch.

External calls are modelled by fault-injection oracles (`PdfEnv`, `SheetEnv`):
each oracle slot says whether the corresponding call raises, and with what
exception.  Python exceptions are the inductive `Exc`; since every `def` in
this file is total, "the pipeline returns normally" is expressed by the model
functions returning a console transcript (a `List String`) for every oracle.
-/

/-- Line 25: the path to the service account credentials file. -/
def CREDENTIALS_FILE : String := "credentials.json"

/-- Line 29: the spreadsheet id constant. -/
def SPREADSHEET_ID : String := "19o6daH5dkhwr1bCdKHEKcnH-EylgNJaFy-q76wyZMns"

/-- Line 32: the worksheet name constant. -/
def WORKSHEET_NAME : String := "Sheet1"

/-- A record, as returned by `worksheet.get_all_records()`: one ordered
mapping from header name to cell value.  Values are modelled by their string
rendering (the script only ever interpolates them into f-strings, which
stringifies scalars). -/
abbrev Record := List (String × String)

/-- The attributes of a ReportLab `ParagraphStyle` that the script sets
explicitly (lines 49-65): style name, font name, font size, leading and
alignment.  Alignment is the ReportLab enum value (`TA_LEFT = 0`,
`TA_CENTER = 1`). -/
structure ParagraphStyle where
  name : String
  fontName : String
  fontSize : Nat
  leading : Nat
  alignment : Nat
deriving DecidableEq

/-- ReportLab's `TA_CENTER` alignment constant. -/
def TA_CENTER : Nat := 1

/-- ReportLab's `TA_LEFT` alignment constant. -/
def TA_LEFT : Nat := 0

/-- `styles['Normal']` from `getSampleStyleSheet()`: Helvetica 10/12,
left-aligned.  Used for the per-record label paragraphs (line 78). -/
def NormalStyle : ParagraphStyle :=
  ⟨"Normal", "Helvetica", 10, 12, TA_LEFT⟩

/-- Lines 49-56: the custom title style (parent `Heading1`, with every
claim-relevant attribute overridden explicitly). -/
def title_style : ParagraphStyle :=
  ⟨"TitleStyle", "Helvetica-Bold", 18, 22, TA_CENTER⟩

/-- Lines 59-65: the style for the data paragraphs (parent `Normal`;
alignment inherited from `Normal`, i.e. `TA_LEFT`). -/
def data_style : ParagraphStyle :=
  ⟨"DataStyle", "Helvetica", 10, 12, TA_LEFT⟩

/-- A ReportLab flowable as the script uses them: a `Paragraph` (markup text
plus a style) or a `Spacer` (width, height). -/
inductive Element
  | paragraph (text : String) (style : ParagraphStyle)
  | spacer (width height : Nat)
deriving DecidableEq

/-- Lines 82-85: the field-listing string built for one record, by folding
`record_text += f"<b>{key}:</b> {value}<br/>"` over `record.items()` in
insertion order, starting from `""`. -/
def record_text (record : Record) : String :=
  record.foldl (fun acc kv => acc ++ "<b>" ++ kv.1 ++ ":</b> " ++ kv.2 ++ "<br/>") ""

/-- Lines 78-88: the four elements appended for the record at 0-based
position `i`: the bold label paragraph `f"<b>Record {i+1}:</b>"` in
`styles['Normal']`, a 6-point spacer, the field-listing paragraph in
`data_style`, and a 12-point spacer. -/
def recordElements (i : Nat) (record : Record) : List Element :=
  [Element.paragraph ("<b>Record " ++ toString (i + 1) ++ ":</b>") NormalStyle,
   Element.spacer 1 6,
   Element.paragraph (record_text record) data_style,
   Element.spacer 1 12]

/-- Lines 43-88: the full element list `export_to_pdf` hands to
`doc.build`: the title paragraph and a 12-point spacer (lines 68-69), then
either the "No data found to export." paragraph (line 73, when `not data`)
or the per-record elements for each record in `enumerate(data)` order
(lines 76-88). -/
def exportElements (data : List Record) : List Element :=
  [Element.paragraph "Google Sheet Data Report" title_style,
   Element.spacer 1 12] ++
  (if data.isEmpty then
    [Element.paragraph "No data found to export." data_style]
  else
    (data.enum.map (fun p => recordElements p.1 p.2)).flatten)

/-- A Python exception, as the script's `except` clauses distinguish them:
`FileNotFoundError`, `gspread.exceptions.SpreadsheetNotFound`,
`gspread.exceptions.WorksheetNotFound`, or any other `Exception`.  Each
carries its `str(e)` rendering. -/
inductive Exc
  | fileNotFound (msg : String)
  | spreadsheetNotFound (msg : String)
  | worksheetNotFound (msg : String)
  | other (msg : String)
deriving DecidableEq

/-- `str(e)` of an exception. -/
def Exc.message : Exc → String
  | .fileNotFound m => m
  | .spreadsheetNotFound m => m
  | .worksheetNotFound m => m
  | .other m => m

/-- Lines 138-149: the `except` dispatch of `read_google_sheet`.  Each
clause prints exactly two lines: an error message and a remediation hint. -/
def readExceptLines : Exc → List String
  | .spreadsheetNotFound _ =>
      ["Error: Spreadsheet with ID '" ++ SPREADSHEET_ID ++ "' not found.",
       "Please double-check the ID and ensure the service account has access."]
  | .worksheetNotFound _ =>
      ["Error: Worksheet named '" ++ WORKSHEET_NAME ++ "' not found.",
       "Please double-check the worksheet name."]
  | .fileNotFound _ =>
      ["Error: The 'credentials.json' file was not found.",
       "Please make sure it's in the same directory as the script."]
  | .other m =>
      ["An unexpected error occurred: " ++ m,
       "Please check your credentials.json file and internet connection."]

/-- Lines 94-96: the `except` clause of `export_to_pdf`: an error message
with the exception text, and a remediation hint. -/
def pdfExceptLines (e : Exc) : List String :=
  ["An error occurred while creating the PDF: " ++ e.message,
   "Please ensure your data is a list of dictionaries and reportlab is installed correctly."]

/-- The file system visible to the script, mapping a path to the document
content stored there (if any).  Document content is the element list the
renderer built. -/
def FileSystem := String → Option (List Element)

/-- Modelled from the spec: `doc.build(elements)` (line 91) is an external
ReportLab call; per spec section 6 the output artifact is "a single file at a
fixed or caller-specified relative path, overwritten if it already exists".
Timestamps and library metadata embedded in the physical PDF are outside the
model. -/
def writeFile (fs : FileSystem) (path : String) (content : List Element) : FileSystem :=
  fun p => if p = path then some content else fs p

/-- The environment of one `export_to_pdf` call: whether `doc.build` raises
(and with what exception), and the `os.path.abspath` rendering of paths,
which depends on the working directory. -/
structure PdfEnv where
  buildExc : Option Exc
  abspath : String → String

/-- The outcome of one `export_to_pdf` call: the lines it printed, the file
system afterwards, and the record list the caller's `data` variable refers
to after the call (Python passes the list by reference, so a mutation inside
the function would be visible here). -/
structure ExportResult where
  console : List String
  fs : FileSystem
  dataAfter : List Record

/-- Lines 34-96: `export_to_pdf`.  The element construction is pure and
total; the only external call inside the `try` that the model lets fail is
`doc.build` (line 91).  On success it writes the document and prints the
success line with the absolute path (line 92); on failure the `except`
clause prints two lines (lines 95-96) and the function still returns
normally.  The body contains no assignment into `data` or its records
(lines 76-88 only read them), so `dataAfter` is the argument itself.  A
`doc.build` failure may leave a partial artifact (spec section 5 leaves it
undefined); the model keeps the previous file system in that case, and no
claim depends on it. -/
def export_to_pdf (env : PdfEnv) (fs : FileSystem) (data : List Record)
    (filename : String := "google_sheet_data.pdf") : ExportResult :=
  match env.buildExc with
  | some e => ⟨pdfExceptLines e, fs, data⟩
  | none =>
      ⟨["Successfully exported data to '" ++ env.abspath filename ++ "'"],
       writeFile fs filename (exportElements data),
       data⟩

/-- Lines 128-129: `json.dumps(row, indent=2)` for a row of plain string
fields (escaping of special characters inside strings is not modelled; no
claim touches this console line). -/
def jsonDumps (row : Record) : String :=
  if row.isEmpty then "\x7b\x7d"
  else
    "\x7b\n" ++
    String.intercalate ",\n" (row.map (fun kv => "  \"" ++ kv.1 ++ "\": \"" ++ kv.2 ++ "\"")) ++
    "\n\x7d"

/-- The environment of one `read_google_sheet` run: for each external call,
whether it raises, and on a successful fetch the records it returns. -/
structure SheetEnv where
  credsExc : Option Exc
  authExc : Option Exc
  openExc : Option Exc
  worksheetExc : Option Exc
  fetchResult : Except Exc (List Record)
  pdf : PdfEnv

/-- Lines 99-149: `read_google_sheet`.  The `try` body runs the external
calls in order; the first one that raises jumps to the `except` dispatch
(lines 138-149), which prints two lines and returns.  On a successful fetch
the records are printed (lines 126-129) and `export_to_pdf` is called with
the data - in both the empty and the non-empty case (lines 132, 136).
`export_to_pdf` catches every exception itself, so nothing it does reaches
this function's handlers.  `worksheet.title` (line 120) is the requested
`WORKSHEET_NAME` once the worksheet lookup succeeded.  The result is the
console transcript and the final file system; the function is total, i.e.
it returns normally on every environment. -/
def read_google_sheet (env : SheetEnv) (fs : FileSystem) : List String × FileSystem :=
  match env.credsExc with
  | some e => (readExceptLines e, fs)
  | none =>
  match env.authExc with
  | some e => (readExceptLines e, fs)
  | none =>
  match env.openExc with
  | some e => ("Authentication successful!" :: readExceptLines e, fs)
  | none =>
  match env.worksheetExc with
  | some e => ("Authentication successful!" :: readExceptLines e, fs)
  | none =>
  match env.fetchResult with
  | .error e =>
      (["Authentication successful!",
        "Reading data from worksheet '" ++ WORKSHEET_NAME ++ "'..."] ++
       readExceptLines e, fs)
  | .ok data =>
      if data.isEmpty then
        let r := export_to_pdf env.pdf fs data
        (["Authentication successful!",
          "Reading data from worksheet '" ++ WORKSHEET_NAME ++ "'...",
          "No data found in the worksheet."] ++ r.console, r.fs)
      else
        let r := export_to_pdf env.pdf fs data
        (["Authentication successful!",
          "Reading data from worksheet '" ++ WORKSHEET_NAME ++ "'...",
          "\nData found:"] ++ data.map jsonDumps ++ r.console, r.fs)

/-! Observation helpers used to state the claims. -/

/-- Bold inline markup, as ReportLab paragraphs render it: a block whose text
is `bold s` reads `s`, typeset bold. -/
def bold (s : String) : String := "<b>" ++ s ++ "</b>"

/-- The text of a label block.  In the element list the script builds, the
per-record label paragraphs are exactly the paragraphs set in
`styles['Normal']` (line 78); the title uses `title_style` and the field and
no-data paragraphs use `data_style`. -/
def labelText? : Element → Option String
  | Element.paragraph t s => if s = NormalStyle then some t else none
  | _ => none

/-- The texts of the label blocks of a document, in document order. -/
def labelTexts (els : List Element) : List String := els.filterMap labelText?

/-- The text of a field-listing block: a paragraph set in `data_style`
(line 87; the empty-set "No data" paragraph on line 73 uses the same style,
so this observer is only applied to non-empty documents). -/
def fieldText? : Element → Option String
  | Element.paragraph t s => if s = data_style then some t else none
  | _ => none

/-- The texts of the field-listing blocks of a document, in document order. -/
def fieldTexts (els : List Element) : List String := els.filterMap fieldText?

/-- All paragraph blocks of a document (text and style), in document order;
spacers are layout, not content blocks. -/
def paragraphBlocks (els : List Element) : List (String × ParagraphStyle) :=
  els.filterMap (fun el => match el with
    | Element.paragraph t s => some (t, s)
    | _ => none)

/-- How many paragraph blocks of the document carry exactly the text `t`
(whatever their style). -/
def textCount (els : List Element) (t : String) : Nat :=
  (els.filterMap (fun el => match el with
    | Element.paragraph u _ => if u = t then some u else none
    | _ => none)).length

/-- The observer behind `textCount` at the title text: maps a paragraph
whose text is exactly "Google Sheet Data Report" to `some` of it. -/
def titleObs : Element → Option String := fun el =>
  match el with
  | Element.paragraph u _ => if u = "Google Sheet Data Report" then some u else none
  | _ => none

/-- The external calls of the pipeline at which a failure can be injected,
in the order the script performs them. -/
inductive FailPoint
  | credsLoad
  | authorize
  | openSpreadsheet
  | openWorksheet
  | fetchRecords
  | docBuild
deriving DecidableEq

/-- The environment in which exactly the call at `p` raises `e`; every
earlier call succeeds, a successful fetch returns `data`, and `a` is the
`os.path.abspath` rendering. -/
def inject (p : FailPoint) (e : Exc) (data : List Record) (a : String → String) : SheetEnv :=
  match p with
  | .credsLoad => ⟨some e, none, none, none, .ok data, ⟨none, a⟩⟩
  | .authorize => ⟨none, some e, none, none, .ok data, ⟨none, a⟩⟩
  | .openSpreadsheet => ⟨none, none, some e, none, .ok data, ⟨none, a⟩⟩
  | .openWorksheet => ⟨none, none, none, some e, .ok data, ⟨none, a⟩⟩
  | .fetchRecords => ⟨none, none, none, none, .error e, ⟨none, a⟩⟩
  | .docBuild => ⟨none, none, none, none, .ok data, ⟨some e, a⟩⟩

/-- The progress lines the script prints before reaching the call at `p`. -/
def progressLines (p : FailPoint) (data : List Record) : List String :=
  match p with
  | .credsLoad | .authorize => []
  | .openSpreadsheet | .openWorksheet => ["Authentication successful!"]
  | .fetchRecords =>
      ["Authentication successful!",
       "Reading data from worksheet '" ++ WORKSHEET_NAME ++ "'..."]
  | .docBuild =>
      ["Authentication successful!",
       "Reading data from worksheet '" ++ WORKSHEET_NAME ++ "'..."] ++
      (if data.isEmpty then ["No data found in the worksheet."]
       else "\nData found:" :: data.map jsonDumps)

/-- The two-line message-plus-remediation-hint that handles a failure at
`p`: `export_to_pdf`'s own handler for the PDF build, the
`read_google_sheet` dispatch for everything else. -/
def dispatchLines (p : FailPoint) (e : Exc) : List String :=
  match p with
  | .docBuild => pdfExceptLines e
  | _ => readExceptLines e

/-! Helper lemmas. -/

theorem record_text_foldl (r : Record) (s : String) :
    r.foldl (fun acc kv => acc ++ "<b>" ++ kv.1 ++ ":</b> " ++ kv.2 ++ "<br/>") s =
      s ++ String.join (r.map (fun kv => "<b>" ++ kv.1 ++ ":</b> " ++ kv.2 ++ "<br/>")) := by
  induction r generalizing s with
  | nil =>
      apply String.ext
      simp [String.join]
  | cons hd tl ih =>
      rw [List.foldl_cons, ih, List.map_cons]
      apply String.ext
      simp [String.data_append, String.data_join]

theorem record_text_eq (r : Record) :
    record_text r =
      String.join (r.map (fun kv => "<b>" ++ kv.1 ++ ":</b> " ++ kv.2 ++ "<br/>")) := by
  rw [record_text, record_text_foldl r ""]
  apply String.ext
  simp

theorem label_text_eq_bold (s : String) :
    "<b>Record " ++ s ++ ":</b>" = bold ("Record " ++ s ++ ":") := by
  apply String.ext
  have h1 : ("<b>Record " : String).data = ("<b>" : String).data ++ ("Record " : String).data := rfl
  have h2 : (":</b>" : String).data = (":" : String).data ++ ("</b>" : String).data := rfl
  simp [bold, String.data_append, h1, h2]

theorem labelTexts_append (l1 l2 : List Element) :
    labelTexts (l1 ++ l2) = labelTexts l1 ++ labelTexts l2 :=
  List.filterMap_append l1 l2 labelText?

theorem fieldTexts_append (l1 l2 : List Element) :
    fieldTexts (l1 ++ l2) = fieldTexts l1 ++ fieldTexts l2 :=
  List.filterMap_append l1 l2 fieldText?

theorem labelTexts_flatten (L : List (List Element)) :
    labelTexts L.flatten = (L.map labelTexts).flatten :=
  List.filterMap_flatten labelText? L

theorem fieldTexts_flatten (L : List (List Element)) :
    fieldTexts L.flatten = (L.map fieldTexts).flatten :=
  List.filterMap_flatten fieldText? L

theorem flatten_map_singleton {α β : Type} (l : List α) (f : α → β) :
    (l.map (fun x => [f x])).flatten = l.map f := by
  induction l with
  | nil => rfl
  | cons hd tl ih => simp [ih]

theorem labelTexts_recordElements (i : Nat) (r : Record) :
    labelTexts (recordElements i r) = [bold ("Record " ++ toString (i + 1) ++ ":")] := by
  rw [← label_text_eq_bold]
  simp +decide [labelTexts, recordElements, labelText?]

theorem fieldTexts_recordElements (i : Nat) (r : Record) :
    fieldTexts (recordElements i r) = [record_text r] := by
  simp +decide [fieldTexts, recordElements, fieldText?]

theorem isEmpty_false_of_ne_nil {data : List Record} (h : data ≠ []) :
    data.isEmpty = false := by
  cases data with
  | nil => exact absurd rfl h
  | cons hd tl => rfl

theorem labels_of_export (data : List Record) (h : data ≠ []) :
    labelTexts (exportElements data) =
      (List.range data.length).map (fun i => bold ("Record " ++ toString (i + 1) ++ ":")) := by
  rw [exportElements, isEmpty_false_of_ne_nil h]
  rw [if_neg (by simp), labelTexts_append]
  rw [show labelTexts [Element.paragraph "Google Sheet Data Report" title_style,
        Element.spacer 1 12] = [] from by simp +decide [labelTexts, labelText?]]
  rw [labelTexts_flatten, List.map_map]
  simp only [List.nil_append, Function.comp_def, labelTexts_recordElements, flatten_map_singleton]
  rw [← List.enum_map_fst data, List.map_map]
  rfl

theorem fields_of_export (data : List Record) (h : data ≠ []) :
    fieldTexts (exportElements data) = data.map record_text := by
  rw [exportElements, isEmpty_false_of_ne_nil h]
  rw [if_neg (by simp), fieldTexts_append]
  rw [show fieldTexts [Element.paragraph "Google Sheet Data Report" title_style,
        Element.spacer 1 12] = [] from by simp +decide [fieldTexts, fieldText?]]
  rw [fieldTexts_flatten, List.map_map]
  simp only [List.nil_append, Function.comp_def, fieldTexts_recordElements, flatten_map_singleton]
  conv_rhs => rw [← List.enum_map_snd data]
  rw [List.map_map]
  rfl

/-- C1: for every non-empty record set, the document built by
`export_to_pdf` contains exactly one label block per record, in input
order, and the label of the record at 1-based position `i` is the bold
markup of "Record i:" (as a ReportLab paragraph it reads "Record i:",
typeset bold). -/
theorem c1_labels_in_order (data : List Record) (h : data ≠ []) :
    labelTexts (exportElements data) =
      (List.range data.length).map (fun i => bold ("Record " ++ toString (i + 1) ++ ":")) :=
  labels_of_export data h

/-- C1 witness: the two-record set from the spec's example. -/
theorem c1_witness :
    ([[("name", "Ann"), ("age", "30")], [("name", "Bo"), ("age", "25")]] : List Record) ≠ [] ∧
    labelTexts (exportElements
        [[("name", "Ann"), ("age", "30")], [("name", "Bo"), ("age", "25")]]) =
      (List.range 2).map (fun i => bold ("Record " ++ toString (i + 1) ++ ":")) :=
  ⟨by decide, c1_labels_in_order _ (by decide)⟩

/-- C2: for every non-empty record set, the field-listing blocks of the
document are exactly one per record, in input order, and the block of each
record is the concatenation of its "key: value" pairs (key in bold markup),
in the record's original key order, each pair terminated by the line break
`<br/>`. -/
theorem c2_field_blocks (data : List Record) (h : data ≠ []) :
    fieldTexts (exportElements data) = data.map record_text ∧
    ∀ r ∈ data, record_text r =
      String.join (r.map (fun kv => "<b>" ++ kv.1 ++ ":</b> " ++ kv.2 ++ "<br/>")) :=
  ⟨fields_of_export data h, fun r _ => record_text_eq r⟩

/-- C2 witness: the spec's example record set. -/
theorem c2_witness :
    ([[("name", "Ann"), ("age", "30")]] : List Record) ≠ [] ∧
    (fieldTexts (exportElements [[("name", "Ann"), ("age", "30")]]) =
      [[(("name", "Ann") : String × String), ("age", "30")]].map record_text ∧
    ∀ r ∈ ([[("name", "Ann"), ("age", "30")]] : List Record), record_text r =
      String.join (r.map (fun kv => "<b>" ++ kv.1 ++ ":</b> " ++ kv.2 ++ "<br/>"))) :=
  ⟨by decide, c2_field_blocks _ (by decide)⟩

/-- C3: on the empty record set the document is exactly the title
paragraph, the 12-point spacer after it, and the single informational
paragraph "No data found to export."; its paragraph blocks are exactly the
title and the informational block, and it has no label blocks. -/
theorem c3_empty_export :
    exportElements [] =
      [Element.paragraph "Google Sheet Data Report" title_style,
       Element.spacer 1 12,
       Element.paragraph "No data found to export." data_style] ∧
    paragraphBlocks (exportElements []) =
      [("Google Sheet Data Report", title_style),
       ("No data found to export.", data_style)] ∧
    labelTexts (exportElements []) = [] := by
  refine ⟨by decide, by decide, by decide⟩

/-- C9: the field-listing string is built by verbatim interpolation: for
every record - whatever characters its keys and values contain, including
markup-significant ones - the built string is exactly the concatenation, in
key order, of `"<b>" ++ key ++ ":</b> " ++ value ++ "<br/>"`. -/
theorem c9_verbatim_interpolation (record : Record) :
    record_text record =
      String.join (record.map (fun kv => "<b>" ++ kv.1 ++ ":</b> " ++ kv.2 ++ "<br/>")) :=
  record_text_eq record

/-- C10: a record with zero fields still gets its four elements - the
"Record i:" label, the spacer, the field-listing paragraph built from the
empty string, and the trailing spacer; label numbering of the whole
document stays the full 1-based range, and the field block at its position
is the empty string. -/
theorem c10_empty_record (data : List Record) (i : Nat)
    (h1 : data ≠ []) (h2 : data[i]? = some ([] : Record)) :
    recordElements i [] =
      [Element.paragraph ("<b>Record " ++ toString (i + 1) ++ ":</b>") NormalStyle,
       Element.spacer 1 6,
       Element.paragraph "" data_style,
       Element.spacer 1 12] ∧
    labelTexts (exportElements data) =
      (List.range data.length).map (fun j => bold ("Record " ++ toString (j + 1) ++ ":")) ∧
    (fieldTexts (exportElements data))[i]? = some "" := by
  refine ⟨by simp [recordElements, record_text], labels_of_export data h1, ?_⟩
  rw [fields_of_export data h1, List.getElem?_map, h2]
  rfl

/-- C10 witness: an empty record in the middle of a three-record set. -/
theorem c10_witness :
    ([[("a", "1")], [], [("b", "2")]] : List Record) ≠ [] ∧
    ([[("a", "1")], [], [("b", "2")]] : List Record)[1]? = some [] ∧
    (recordElements 1 [] =
      [Element.paragraph ("<b>Record " ++ toString (1 + 1) ++ ":</b>") NormalStyle,
       Element.spacer 1 6,
       Element.paragraph "" data_style,
       Element.spacer 1 12] ∧
    labelTexts (exportElements [[("a", "1")], [], [("b", "2")]]) =
      (List.range 3).map (fun j => bold ("Record " ++ toString (j + 1) ++ ":")) ∧
    (fieldTexts (exportElements [[("a", "1")], [], [("b", "2")]]))[1]? = some "") :=
  ⟨by decide, by decide, c10_empty_record _ 1 (by decide) (by decide)⟩

theorem label_ne_title (i : Nat) :
    ("<b>Record " ++ toString (i + 1) ++ ":</b>") ≠ "Google Sheet Data Report" := by
  intro heq
  have hd := congrArg String.data heq
  have h1 : ("<b>Record " : String).data = '<' :: ("b>Record " : String).data := rfl
  have h2 : ("Google Sheet Data Report" : String).data =
      'G' :: ("oogle Sheet Data Report" : String).data := rfl
  simp +decide [String.data_append, h1, h2] at hd

theorem record_text_ne_title (r : Record) :
    record_text r ≠ "Google Sheet Data Report" := by
  cases r with
  | nil => decide
  | cons kv tl =>
      intro heq
      rw [record_text_eq] at heq
      have hd := congrArg String.data heq
      have h1 : ("<b>" : String).data = '<' :: ("b>" : String).data := rfl
      have h2 : ("Google Sheet Data Report" : String).data =
          'G' :: ("oogle Sheet Data Report" : String).data := rfl
      simp +decide [String.data_join, String.data_append, h1, h2] at hd

theorem titleObs_recordElements (i : Nat) (r : Record) :
    List.filterMap titleObs (recordElements i r) = [] := by
  simp [titleObs, recordElements, label_ne_title i, record_text_ne_title r]

theorem textCount_title_export (data : List Record) :
    textCount (exportElements data) "Google Sheet Data Report" = 1 := by
  show (List.filterMap titleObs (exportElements data)).length = 1
  rcases data with _ | ⟨hd, tl⟩
  · decide
  · rw [exportElements]
    rw [show (hd :: tl : List Record).isEmpty = false from rfl, if_neg (by simp)]
    rw [List.filterMap_append, List.filterMap_flatten, List.length_append]
    have h2 : ((List.map (fun p => recordElements p.1 p.2)
        ((hd :: tl : List Record).enum)).map (List.filterMap titleObs)).flatten = [] := by
      rw [List.flatten_eq_nil_iff]
      intro l hl
      rw [List.map_map] at hl
      obtain ⟨p, hp, hpe⟩ := List.mem_map.mp hl
      rw [← hpe]
      exact titleObs_recordElements p.1 p.2
    rw [h2]
    decide

/-- C6: for every record set, the document starts with the title paragraph
"Google Sheet Data Report" in the title style, exactly one paragraph block
of the whole document carries that text, and the title style is bold
Helvetica at the fixed large size 18, centered. -/
theorem c6_title_block (data : List Record) :
    (exportElements data).head? =
      some (Element.paragraph "Google Sheet Data Report" title_style) ∧
    textCount (exportElements data) "Google Sheet Data Report" = 1 ∧
    title_style.fontName = "Helvetica-Bold" ∧
    title_style.fontSize = 18 ∧
    title_style.alignment = TA_CENTER :=
  ⟨rfl, textCount_title_export data, rfl, rfl, rfl⟩

/-- C4: injecting each of the three fetch-side failure kinds - a missing
credentials file (authentication failure), a wrong worksheet name (resource
not found), and a simulated network error (connectivity failure, any
exception text) - makes `read_google_sheet` return normally with a console
transcript ending in that kind's two-line error message, and the three
messages are pairwise distinct. -/
theorem c4_distinct_failure_messages (mf mw mn : String) (fs : FileSystem) :
    (read_google_sheet (inject .credsLoad (.fileNotFound mf) [] (fun s => s)) fs).1 =
      readExceptLines (.fileNotFound mf) ∧
    (read_google_sheet (inject .openWorksheet (.worksheetNotFound mw) [] (fun s => s)) fs).1 =
      "Authentication successful!" :: readExceptLines (.worksheetNotFound mw) ∧
    (read_google_sheet (inject .fetchRecords (.other mn) [] (fun s => s)) fs).1 =
      "Authentication successful!" ::
        ("Reading data from worksheet '" ++ WORKSHEET_NAME ++ "'...") ::
        readExceptLines (.other mn) ∧
    readExceptLines (.fileNotFound mf) ≠ readExceptLines (.worksheetNotFound mw) ∧
    readExceptLines (.fileNotFound mf) ≠ readExceptLines (.other mn) ∧
    readExceptLines (.worksheetNotFound mw) ≠ readExceptLines (.other mn) := by
  refine ⟨rfl, rfl, rfl, ?_, ?_, ?_⟩ <;>
    · intro h
      simp +decide [readExceptLines] at h

/-- C5: whichever external call of the pipeline fails - credential load,
authorization, spreadsheet open, worksheet open, record fetch, or the PDF
build - and with whatever exception, `read_google_sheet` returns normally
with a transcript that is its normal progress lines followed by exactly the
two-line message-plus-remediation-hint of the handler for that call (the
`except` dispatch of `read_google_sheet`, or `export_to_pdf`'s own handler
for the PDF build); no exception escapes to the caller. -/
theorem c5_all_failures_handled (p : FailPoint) (e : Exc) (data : List Record)
    (a : String → String) (fs : FileSystem) :
    (read_google_sheet (inject p e data a) fs).1 =
      progressLines p data ++ dispatchLines p e ∧
    (dispatchLines p e).length = 2 := by
  constructor
  · cases p with
    | docBuild =>
        by_cases hdata : data.isEmpty <;>
          simp [read_google_sheet, inject, progressLines, dispatchLines,
            export_to_pdf, hdata]
    | credsLoad => rfl
    | authorize => rfl
    | openSpreadsheet => rfl
    | openWorksheet => rfl
    | fetchRecords => rfl
  · cases p <;> cases e <;> rfl

theorem writeFile_idem (fs : FileSystem) (path : String) (c : List Element) :
    writeFile (writeFile fs path c) path c = writeFile fs path c := by
  funext p
  by_cases hp : p = path <;> simp [writeFile, hp]

/-- C7: the render is deterministic in its input and overwriting: with a
succeeding `doc.build`, running `export_to_pdf` twice on the same record
set and output path leaves the file system of the first run unchanged, and
after either run the artifact at the output path holds exactly the element
list rendered from the record set (physical timestamps/metadata of the PDF
library are outside the model). -/
theorem c7_idempotent_render (a : String → String) (data : List Record)
    (fs : FileSystem) (filename : String) :
    (export_to_pdf ⟨none, a⟩ ((export_to_pdf ⟨none, a⟩ fs data filename).fs)
        data filename).fs = (export_to_pdf ⟨none, a⟩ fs data filename).fs ∧
    (export_to_pdf ⟨none, a⟩ fs data filename).fs filename =
      some (exportElements data) ∧
    (export_to_pdf ⟨none, a⟩ ((export_to_pdf ⟨none, a⟩ fs data filename).fs)
        data filename).fs filename = some (exportElements data) := by
  refine ⟨writeFile_idem fs filename (exportElements data), ?_, ?_⟩ <;>
    simp [export_to_pdf, writeFile]

/-- C8: `export_to_pdf` does not mutate its input: whatever the
environment, file system, record set and output path, the record set the
caller sees after the call is exactly the one passed in - same records,
same keys, values and key order (the body, lines 76-88 of the source, only
reads `data` and its records). -/
theorem c8_input_not_mutated (env : PdfEnv) (fs : FileSystem)
    (data : List Record) (filename : String) :
    (export_to_pdf env fs data filename).dataAfter = data := by
  rcases env with ⟨be, a⟩
  cases be <;> rfl
